import Mathlib

/-!
Shallow embedding of the core raster utilities of the dataharvester
repository (`inst/python/utils.py` and `inst/python/temporal.py`).

Numeric raster samples and geographic coordinates are modelled as rationals,
arrays as (nested) lists, and fallible code as `Except`/`Option`.  Each
definition mirrors one Python function of the source; comments point at the
statement being translated where the correspondence is not obvious.
-/

namespace Dataharvester

/-! ## Python and numpy primitives -/

/-- Python `int()` applied to a float: truncation toward zero
(`int(2.7) = 2`, `int(-2.7) = -2`). -/
def pyInt (q : ℚ) : ℤ := if 0 ≤ q then ⌊q⌋ else ⌈q⌉

/-- numpy basic indexing `l[i]` along one axis: a negative index in
`[-len, -1]` counts from the end; anything else out of `[0, len)` raises
`IndexError`, modelled as `none`. -/
def npIndex1 {α : Type} (l : List α) (i : ℤ) : Option α :=
  if 0 ≤ i then l.get? i.toNat
  else if -(l.length : ℤ) ≤ i then l.get? (i + l.length).toNat
  else none

/-- A 2-D numpy array of samples. -/
abbrev Arr2 : Type := List (List ℚ)

/-- numpy basic indexing `arr[i, j]` on a 2-D array. -/
def npIndex2 (arr : Arr2) (i j : ℤ) : Option ℚ :=
  match npIndex1 arr i with
  | none => none
  | some row => npIndex1 row j

/-- Shape `(rows, cols)` of a 2-D array (cols read off the first row, as
numpy metadata would give for a rectangular array). -/
def shape2 (s : Arr2) : ℕ × ℕ := (s.length, (s.headD []).length)

/-- Rectangularity of a 2-D array: every row has the length of the first row. -/
def isRect (s : Arr2) : Bool := s.all (fun row => row.length = (s.headD []).length)

/-- Sum of a list of rationals (`np.nansum` on NaN-free data). -/
def qSum (l : List ℚ) : ℚ := l.foldr (· + ·) 0

/-- Mean of a list of rationals (`np.nanmean` on NaN-free data). -/
def qMean (l : List ℚ) : ℚ := qSum l / l.length

/-- Ascending sort used by the median/percentile reducers. -/
def qSort (l : List ℚ) : List ℚ := l.insertionSort (· ≤ ·)

/-- Median with numpy semantics: midpoint average for even lengths. -/
def qMedian (l : List ℚ) : ℚ :=
  let s := qSort l
  let n := s.length
  if n % 2 = 1 then s.getD (n / 2) 0
  else (s.getD (n / 2 - 1) 0 + s.getD (n / 2) 0) / 2

/-- Percentile, as `np.nanpercentile` with the default linear interpolation:
`h = q (n-1) / 100`, result `a[⌊h⌋] + (h - ⌊h⌋) (a[⌊h⌋+1] - a[⌊h⌋])`. -/
def qPercentile (l : List ℚ) (q : ℚ) : ℚ :=
  let s := qSort l
  let n := s.length
  if n = 0 then 0
  else
    let h : ℚ := q * ((n : ℚ) - 1) / 100
    let i : ℕ := (⌊h⌋).toNat
    let lo := s.getD i 0
    let hi := s.getD (min (i + 1) (n - 1)) 0
    lo + (h - (⌊h⌋ : ℚ)) * (hi - lo)

/-- Maximum of a list (`.max()` over a nonempty group). -/
def qMax (l : List ℚ) : ℚ :=
  match l with
  | [] => 0
  | x :: xs => xs.foldl max x

/-- Minimum of a list (`.min()` over a nonempty group). -/
def qMin (l : List ℚ) : ℚ :=
  match l with
  | [] => 0
  | x :: xs => xs.foldl min x

/-- Dispatch from an aggregation name to its reducer, as the string-keyed
`aggdict` of the source does. -/
def aggFunByName (a : String) : List ℚ → ℚ :=
  match a with
  | "mean" => qMean
  | "median" => qMedian
  | "sum" => qSum
  | "perc95" => (qPercentile · 95)
  | "perc5" => (qPercentile · 5)
  | "max" => qMax
  | "min" => qMin
  | _ => fun _ => 0

/-! ## `utils.py`: affine transform and point sampling -/

/-- The six coefficients of the affine transform of a raster, indexed as rasterio
indexes them: `g0` = pixel width, `g2` = x origin, `g4` = (signed) pixel
height, `g5` = y origin; `g1`, `g3` are the skew terms the code never reads. -/
structure GT where
  g0 : ℚ
  g1 : ℚ
  g2 : ℚ
  g3 : ℚ
  g4 : ℚ
  g5 : ℚ
deriving DecidableEq

/-- Embedding of `_get_coords_at_point(gt, lon, lat)`:
`row = int((lon - gt[2]) / gt[0])`, `col = int((lat - gt[5]) / gt[4])`,
returning the pair `(col, row)`. -/
def get_coords_at_point (gt : GT) (lon lat : ℚ) : ℤ × ℤ :=
  let row := pyInt ((lon - gt.g2) / gt.g0)
  let col := pyInt ((lat - gt.g5) / gt.g4)
  (col, row)

/-- An on-disk raster file: a name, an affine transform and the list of its
bands, each a 2-D array. -/
structure Raster where
  name : String
  gt : GT
  bands : List Arr2

/-- Band one, as `raster.read(1)` returns it. -/
def readBand1 (r : Raster) : Arr2 := r.bands.headD []

/-- Height and width recorded in the metadata of a raster file (the shape of its
bands). -/
def rasterShape (r : Raster) : ℕ × ℕ := shape2 (readBand1 r)

/-- The per-point body of the `raster_query` loop:
`try: val = arr[point[0], point[1]]; except: val = 0`.  The bare `except`
makes the lookup total: any `IndexError` degrades to `0`. -/
def samplePoint (gt : GT) (arr : Arr2) (lon lat : ℚ) : ℚ :=
  let point := get_coords_at_point gt lon lat
  (npIndex2 arr point.1 point.2).getD 0

/-- Embedding of `raster_query(longs, lats, rasters)`: one column (named after the raster)
per raster, one sampled value per `(lon, lat)` pair, reading only band 1. -/
def raster_query (longs lats : List ℚ) (rasters : List Raster) :
    List (String × List ℚ) :=
  rasters.map (fun r =>
    (r.name,
      (longs.zip lats).map (fun p => samplePoint r.gt (readBand1 r) p.1 p.2)))

/-! ## `utils.py`: `reproj_raster` -/

/-- The inputs of `reproj_raster` our embedding needs: the band count of the
source file, whose CRS is taken equal to the requested output CRS (the rasterio helper
`calculate_default_transform` then returns the dimensions it is given
unchanged). -/
structure ReprojSrc where
  count : ℕ

/-- The shape and per-band resampling policy of the raster written by
`reproj_raster`. -/
structure ReprojOut where
  width : ℤ
  height : ℤ
  resampling : List String
deriving DecidableEq

/-- Embedding of `reproj_raster(infile, outfile, bbox_out, resolution_out, ...)` for a
source whose CRS equals `crs_out`:
`width_out = int((bbox_out[2] - bbox_out[0]) / resolution_out)`,
`height_out = int((bbox_out[3] - bbox_out[1]) / resolution_out)`, and every
band `1 .. src.count` is written with `resampling=Resampling.nearest`. -/
def reproj_raster (src : ReprojSrc) (left bottom right top : ℚ) (res : ℚ) :
    ReprojOut :=
  let width_out := pyInt ((right - left) / res)
  let height_out := pyInt ((top - bottom) / res)
  { width := width_out
    height := height_out
    resampling := List.replicate src.count "nearest" }

/-! ## `utils.py`: batch aggregation (`aggregate_rasters`, `aggregate_multiband`) -/

/-- The value of `_read_file(file)`: a 2-D array (`src.read(1)`) when the
file has exactly one band, the full 3-D array (`src.read()`) otherwise. -/
inductive ReadArr where
  | two : Arr2 → ReadArr
  | three : List Arr2 → ReadArr

/-- Embedding of `_read_file` of `utils.py`. -/
def read_file (r : Raster) : ReadArr :=
  if r.bands.length = 1 then .two (r.bands.headD []) else .three r.bands

/-- An element of the heterogeneous `array_list` built by
`aggregate_rasters`: iterating a 2-D numpy array yields its 1-D rows,
iterating a 3-D array yields its 2-D band slices. -/
inductive NPA where
  | one : List ℚ → NPA
  | two : Arr2 → NPA
deriving DecidableEq

/-- Embedding of `array_list.extend(x)` where `x` came from `_read_file`: `extend`
iterates the first axis of the array. -/
def pyExtend (x : ReadArr) : List NPA :=
  match x with
  | .two rows => rows.map .one
  | .three bands => bands.map .two

/-- All entries are 1-D arrays of length `n`. -/
def allOneLen (n : ℕ) (l : List NPA) : Bool :=
  l.all (fun x => match x with | .one w => w.length = n | .two _ => false)

/-- All entries are rectangular 2-D arrays of shape `sh`. -/
def allTwoShape (sh : ℕ × ℕ) (l : List NPA) : Bool :=
  l.all (fun x =>
    match x with
    | .one _ => false
    | .two t => isRect t && shape2 t = sh)

/-- The 2-D payload of an `NPA` entry. -/
def toArr2 (x : NPA) : Arr2 :=
  match x with
  | .one _ => []
  | .two s => s

/-- Per-cell reduction of a stack of same-shape 2-D arrays, as
`np.nanmean(slices, axis=0)` and friends perform on NaN-free data. -/
def cellAgg (f : List ℚ → ℚ) (slices : List Arr2) : Arr2 :=
  match slices with
  | [] => []
  | s0 :: _ =>
    (List.range s0.length).map (fun r =>
      (List.range ((s0.headD []).length)).map (fun c =>
        f (slices.map (fun s => (s.getD r []).getD c 0))))

/-- Reduction `np.nan<f>(array_list, axis=0)` on the heterogeneous `array_list`:
columnwise over a stack of equal-length 1-D rows, cellwise over a stack of
same-shape 2-D slices, and an error (`none`) on a ragged or mixed stack. -/
def stackAgg (f : List ℚ → ℚ) (l : List NPA) : Option NPA :=
  match l with
  | [] => none
  | .one v :: _ =>
    if allOneLen v.length l then
      some (.one ((List.range v.length).map (fun c =>
        f (l.map (fun x => match x with | .one w => w.getD c 0 | .two _ => 0)))))
    else none
  | .two s :: _ =>
    if allTwoShape (shape2 s) l then some (.two (cellAgg f (l.map toArr2)))
    else none

/-- The names accepted by the non-temporal aggregators. -/
def aggTypes5 : List String := ["mean", "median", "sum", "perc95", "perc5"]

/-- Observable outcome of a run of `aggregate_rasters`: the exception it
raised (if any), the files it opened for reading, the band data it wrote,
and its return value. -/
structure AggRun where
  exn : Option String
  reads : List String
  writes : List (String × Arr2)
  ret : List String
deriving DecidableEq

/-- The message of the `RuntimeWarning` both batch aggregators raise when
`file_list` and `data_dir` are both set. -/
def runtimeWarningMsg : String :=
  "RuntimeWarning: file_list and data_dir both set, only the data_dir will be used."

/-- The output-writing loop of `aggregate_rasters`: for each surviving
aggregation name, `dst.write(aggdict[a].astype(float32), 1)` into a file
opened with the metadata of the first input; a source shape different from the
metadata shape raises `ValueError` (in particular any 1-D source). -/
def aggWriteLoop (meta : ℕ × ℕ) (outfile : String) (aggdict : String → NPA)
    (reads : List String) :
    List String → List (String × Arr2) → List String → AggRun
  | [], writes, names => ⟨none, reads, writes, names⟩
  | a :: rest, writes, names =>
    match aggdict a with
    | .two s =>
      if shape2 s = meta then
        aggWriteLoop meta outfile aggdict reads rest
          (writes ++ [(outfile ++ "_" ++ a ++ ".tif", s)])
          (names ++ [outfile ++ "_" ++ a ++ ".tif"])
      else ⟨some "ValueError: source shape incompatible with band 1", reads, writes, []⟩
    | .one _ => ⟨some "ValueError: source shape incompatible with band 1", reads, writes, []⟩

/-- The `array_list` of `aggregate_rasters`: `for x in file_list:
array_list.extend(_read_file(x))`. -/
def arrayListOf (files : List Raster) : List NPA :=
  (files.map (fun x => pyExtend (read_file x))).flatten

/-- Embedding of `aggregate_rasters(file_list, data_dir, agg, outfile)`.  A directory is
modelled by the list of raster files its `*.tif` glob yields. -/
def aggregate_rasters (file_list data_dir : Option (List Raster))
    (agg : List String) (outfile : String) : AggRun :=
  if file_list.isSome && data_dir.isSome then
    ⟨some runtimeWarningMsg, [], [], []⟩
  else
    -- `aggcheck = [a for a in agg if a in agg_types]`; the subsequent
    -- `if aggcheck is None` is always false (a comprehension is never None),
    -- so the ValueError branch for unknown names is dead code
    let aggcheck := agg.filter (fun a => aggTypes5.contains a)
    let files := match data_dir with | some d => d | none => file_list.getD []
    match files with
    | [] => ⟨some "IndexError: list index out of range", [], [], []⟩
    | f0 :: _ =>
      let meta := rasterShape f0
      let array_list := arrayListOf files
      -- all five reductions are computed eagerly before any write
      match stackAgg qMean array_list, stackAgg qMedian array_list,
            stackAgg qSum array_list, stackAgg (qPercentile · 95) array_list,
            stackAgg (qPercentile · 5) array_list with
      | some m, some md, some s, some p95, some p5 =>
        let aggdict : String → NPA := fun a =>
          match a with
          | "mean" => m
          | "median" => md
          | "sum" => s
          | "perc95" => p95
          | _ => p5
        aggWriteLoop meta outfile aggdict (f0.name :: files.map (·.name))
          aggcheck [] []
      | _, _, _, _, _ =>
        ⟨some "ValueError: ragged array_list", f0.name :: files.map (·.name), [], []⟩

/-- Observable outcome of a run of `aggregate_multiband` (its return value
is the triple of file names, channel labels and aggregation names). -/
structure MBRun where
  exn : Option String
  reads : List String
  writes : List (String × Arr2)
  outfname_list : List String
  channel_list : List String
  agg_list : List String
deriving DecidableEq

/-- The per-file loop of `aggregate_multiband`: `data = _read_file(x);
array_list0.append(data[0, :, :])` (and channels 1, 2).  Indexing a 2-D
array with three indices, or a 3-D array with fewer than three bands,
raises `IndexError`. -/
def mbCollect : List Raster → Except String (List Arr2 × List Arr2 × List Arr2)
  | [] => .ok ([], [], [])
  | x :: rest =>
    match read_file x with
    | .two _ => .error "IndexError: too many indices for 2-dimensional array"
    | .three bands =>
      match bands with
      | b0 :: b1 :: b2 :: _ =>
        match mbCollect rest with
        | .error e => .error e
        | .ok (l0, l1, l2) => .ok (b0 :: l0, b1 :: l1, b2 :: l2)
      | _ => .error "IndexError: band index out of range"

/-- Reduction `np.nan<f>(channel, axis=0)` over one channel stack of 2-D arrays. -/
def stack2Agg (f : List ℚ → ℚ) (l : List Arr2) : Option Arr2 :=
  match l with
  | [] => none
  | s0 :: _ =>
    if l.all (fun t => isRect t && shape2 t = shape2 s0) then
      some (cellAgg f l)
    else none

/-- The inner write loop of `aggregate_multiband` for one channel `i`; a
source shape different from the metadata shape raises `ValueError`, keeping
the files already written but discarding the would-be return value. -/
def mbWriteLoop (meta : ℕ × ℕ) (outfile : String) (i : ℕ)
    (aggdict : String → Arr2) (st : MBRun) : List String → MBRun
  | [] => st
  | a :: rest =>
    let fname := outfile ++ "_" ++ a ++ "_channel_" ++ toString i ++ ".tif"
    let arr := aggdict a
    if shape2 arr = meta then
      mbWriteLoop meta outfile i aggdict
        { st with
          writes := st.writes ++ [(fname, arr)]
          outfname_list := st.outfname_list ++ [fname]
          agg_list := st.agg_list ++ [a]
          channel_list := st.channel_list ++ [toString i] } rest
    else
      { st with
        exn := some "ValueError: source shape incompatible with band 1"
        outfname_list := [], channel_list := [], agg_list := [] }

/-- The outer `for i, channel in enumerate([...])` loop of
`aggregate_multiband`. -/
def mbChannelLoop (meta : ℕ × ℕ) (outfile : String) (aggcheck : List String)
    (st : MBRun) : List (ℕ × List Arr2) → MBRun
  | [] => st
  | (i, channel) :: rest =>
    match stack2Agg qMean channel, stack2Agg qMedian channel,
          stack2Agg qSum channel, stack2Agg (qPercentile · 95) channel,
          stack2Agg (qPercentile · 5) channel with
    | some m, some md, some s, some p95, some p5 =>
      let aggdict : String → Arr2 := fun a =>
        match a with
        | "mean" => m
        | "median" => md
        | "sum" => s
        | "perc95" => p95
        | _ => p5
      let st1 := mbWriteLoop meta outfile i aggdict st aggcheck
      if st1.exn.isSome then st1
      else mbChannelLoop meta outfile aggcheck st1 rest
    | _, _, _, _, _ =>
      { st with
        exn := some "ValueError: ragged channel stack"
        outfname_list := [], channel_list := [], agg_list := [] }

/-- Embedding of `aggregate_multiband(file_list, data_dir, agg, outfile)`. -/
def aggregate_multiband (file_list data_dir : Option (List Raster))
    (agg : List String) (outfile : String) : MBRun :=
  if file_list.isSome && data_dir.isSome then
    ⟨some runtimeWarningMsg, [], [], [], [], []⟩
  else
    let aggcheck := agg.filter (fun a => aggTypes5.contains a)
    let files := match data_dir with | some d => d | none => file_list.getD []
    match files with
    | [] => ⟨some "IndexError: list index out of range", [], [], [], [], []⟩
    | f0 :: _ =>
      let meta := rasterShape f0
      let reads := f0.name :: files.map (·.name)
      match mbCollect files with
      | .error e => ⟨some e, reads, [], [], [], []⟩
      | .ok (l0, l1, l2) =>
        mbChannelLoop meta outfile aggcheck ⟨none, reads, [], [], [], []⟩
          [(0, l0), (1, l1), (2, l2)]

/-! ## `utils.py`: the log table (`init_logtable`, `update_logtable`) -/

/-- One row of the log table. -/
structure LogRow where
  layername : String
  agfunction : String
  dataset : String
  layertitle : String
  filename_out : String
  loginfo : String
deriving DecidableEq

/-- Embedding of `init_logtable()`: an empty table with the six columns. -/
def init_logtable : List LogRow := []

/-- A Python argument that may be a single string or a list of strings
(`agfunctions`, `loginfos`). -/
inductive StrOrList where
  | str : String → StrOrList
  | list : List String → StrOrList

/-- The slice of the settings namespace `update_logtable` reads:
`target_sources` maps a data-source name to a dict from layer keys to
values that are either a list of aggregation-function names or `None`. -/
structure Settings where
  target_sources : List (String × List (String × Option (List String)))
  outpath : String

/-- Python dict lookup `d[k]` / `k in d`, `none` meaning `KeyError`. -/
def pyDictGet {α : Type} (d : List (String × α)) (k : String) : Option α :=
  (d.find? (fun p => p.1 = k)).map (·.2)

/-- The `try`/`except` block of `update_logtable` deriving `agfunctions`
from the settings when the caller leaves them empty; every lookup failure
(or a `None` value) lands in the branch substituting
`["None"] * len(layernames)`. -/
def agfunctionsFromSettings (settings : Settings) (datasource : String)
    (n : ℕ) : List String :=
  let dflt := List.replicate n "None"
  match pyDictGet settings.target_sources "SLGA" with
  | none => dflt
  | some slga =>
    if (pyDictGet slga "agfunctions").isSome then
      match pyDictGet settings.target_sources datasource with
      | none => dflt
      | some d =>
        match pyDictGet d "agfunctions" with
        | none => dflt
        | some none => dflt
        | some (some v) => v
    else
      match pyDictGet settings.target_sources datasource with
      | none => dflt
      | some d =>
        -- flattening `[item for sublist in values for item in sublist]`
        -- raises TypeError (caught) when any value is None
        if (d.map (·.2)).any (·.isNone) then dflt
        else ((d.map (·.2)).filterMap id).flatten

/-- The `agfunctions` value after the two normalisation statements: a
string is replicated, and an empty list is replaced from the settings. -/
def normalizedAg (agfunctions : StrOrList) (settings : Settings)
    (datasource : String) (n : ℕ) : List String :=
  let ag1 := match agfunctions with
    | .str s => List.replicate n s
    | .list l => l
  if ag1 = [] then agfunctionsFromSettings settings datasource n else ag1

/-- The `loginfos` value after its normalisation block, `none` meaning the
early `return df_log` on a length mismatch. -/
def normalizedLogs (loginfos : StrOrList) (n : ℕ) : Option (List String) :=
  match loginfos with
  | .str s => some (List.replicate n s)
  | .list l =>
    if l = [] then some (List.replicate n "processed")
    else if l.length = n then some l else none

/-- The `layertitles` value after its default: an empty list is replaced by
`[layernames[i] + "_" + agfunctions[i] for i in range(len(layernames))]`. -/
def derivedTitles (layertitles layernames ag : List String) : List String :=
  if layertitles = [] then (layernames.zip ag).map (fun p => p.1 ++ "_" ++ p.2)
  else layertitles

/-- Row construction of `pd.DataFrame(data_add)` over the six parallel columns. -/
def mkRows : List String → List String → List String → List String →
    List String → List String → List LogRow
  | a :: as, b :: bs, c :: cs, d :: ds, e :: es, f :: fs =>
    ⟨a, b, c, d, e, f⟩ :: mkRows as bs cs ds es fs
  | _, _, _, _, _, _ => []

/-- Result of `update_logtable`: the table it returns and whether
`df_log.to_csv(...)` ran. -/
structure UpdateOut where
  table : List LogRow
  csvWritten : Bool
deriving DecidableEq

/-- Embedding of `update_logtable(df_log, filenames, layernames, datasource, settings,
layertitles, agfunctions, loginfos)`.  Every validation failure prints and
returns the table unchanged; the only uncaught exception is
`pd.DataFrame` on a caller-supplied `layertitles` of the wrong length. -/
def update_logtable (df_log : List LogRow) (filenames layernames : List String)
    (datasource : String) (settings : Settings) (layertitles : List String)
    (agfunctions : StrOrList) (loginfos : StrOrList) :
    Except String UpdateOut :=
  if filenames.length ≠ layernames.length then .ok ⟨df_log, false⟩
  else
    let ag := normalizedAg agfunctions settings datasource layernames.length
    if ag.length ≠ layernames.length then .ok ⟨df_log, false⟩
    else
      let titles := derivedTitles layertitles layernames ag
      -- the duplicate check compares each filename against the existing
      -- `filename_out` column only, never against the rest of the batch
      if filenames.any (fun f => (df_log.map (·.filename_out)).contains f) then
        .ok ⟨df_log, false⟩
      else
        match normalizedLogs loginfos layernames.length with
        | none => .ok ⟨df_log, false⟩
        | some logs =>
          let datasets := List.replicate layernames.length datasource
          if titles.length ≠ layernames.length then
            .error "ValueError: DataFrame columns must be same length"
          else
            .ok ⟨df_log ++ mkRows layernames ag datasets titles filenames logs,
                 true⟩

/-! ## `temporal.py`: `combine_rasters_temporal` and `aggregate_temporal` -/

/-- A calendar date, the parsed form of one `pd.to_datetime` time label. -/
structure Date where
  year : ℤ
  month : ℕ
  day : ℕ
deriving DecidableEq

/-- The value of a rioxarray attribute holding time labels: a single string
for a one-band file, a tuple of labels otherwise (labels are modelled
already parsed to dates; `pd.to_datetime` is their identity). -/
inductive AttrVal where
  | str : String → AttrVal
  | tup : List Date → AttrVal
deriving DecidableEq

/-- One file as `rioxarray.open_rasterio` presents it: its CRS (which
`combine_rasters_temporal` never reads), coordinate names, attributes, the
values of the channel coordinate, the spatial coordinate labels and one
2-D slice per channel entry. -/
structure XFile where
  crs : String
  coords : List String
  attrs : List (String × AttrVal)
  channelVals : List ℚ
  xcoords : List ℚ
  ycoords : List ℚ
  data : List Arr2

/-- A 2-D array with missing samples (`NaN` after an outer join). -/
abbrev OArr2 : Type := List (List (Option ℚ))

/-- Sorted union of coordinate labels, as `xr.concat` with its default
`join` outer-joins non-concatenated dimension coordinates. -/
def unionSorted (ls : List (List ℚ)) : List ℚ := qSort ls.flatten.dedup

/-- Re-index one slice onto the union grid; positions absent from the
own grid of the file become `NaN` (`none`). -/
def alignSlice (ux uy fx fy : List ℚ) (s : Arr2) : OArr2 :=
  uy.map (fun yv =>
    ux.map (fun xv =>
      match fy.findIdx? (· = yv), fx.findIdx? (· = xv) with
      | some yi, some xi => some ((s.getD yi []).getD xi 0)
      | _, _ => none))

/-- The cube `combine_rasters_temporal` returns: a time label per slice on
the outer-joined spatial grid. -/
structure Cube where
  times : List Date
  xcoords : List ℚ
  ycoords : List ℚ
  slices : List OArr2
  crs : String

/-- The loop state of `combine_rasters_temporal`. -/
structure CombSt where
  array_list : List XFile
  attrs : List Date
  first : Bool
  coords : List ℚ

/-- The validation/collection loop of `combine_rasters_temporal`: missing
channel or attribute raises `ValueError`; a plain-string attribute makes
`attrs + value` raise `TypeError`; `coords[-1]` on an empty accumulator
raises `IndexError`.  No shape or CRS comparison appears anywhere. -/
def combLoop (channel_name attribute_name : String) :
    List XFile → CombSt → Except String CombSt
  | [], st => .ok st
  | x :: rest, st =>
    if channel_name ∈ x.coords then
      match pyDictGet x.attrs attribute_name with
      | none =>
        .error ("ValueError: " ++ attribute_name ++ " not an attribute in the raster")
      | some (.str _) =>
        .error "TypeError: can only concatenate tuple, not str"
      | some (.tup labels) =>
        if st.first then
          combLoop channel_name attribute_name rest
            ⟨st.array_list ++ [x], st.attrs ++ labels, false, x.channelVals⟩
        else
          match st.coords.getLast? with
          | none => .error "IndexError: index -1 is out of bounds"
          | some last =>
            combLoop channel_name attribute_name rest
              ⟨st.array_list ++ [x], st.attrs ++ labels, false,
               st.coords ++ x.channelVals.map (· + last)⟩
    else .error ("ValueError: " ++ channel_name ++ " not a channel in the raster")

/-- Embedding of `combine_rasters_temporal(file_list, channel_name, attribute_name)`:
validate and collect per file, `xr.concat` along the channel (outer-joining
the spatial grids), then relabel the concatenated axis with the parsed
time labels, which must match it in length. -/
def combine_rasters_temporal (file_list : List XFile)
    (channel_name attribute_name : String) : Except String Cube :=
  match combLoop channel_name attribute_name file_list ⟨[], [], true, []⟩ with
  | .error e => .error e
  | .ok st =>
    let ux := unionSorted (st.array_list.map (·.xcoords))
    let uy := unionSorted (st.array_list.map (·.ycoords))
    let slices :=
      (st.array_list.map (fun f => f.data.map (alignSlice ux uy f.xcoords f.ycoords))).flatten
    if st.attrs.length ≠ slices.length then
      .error "ValueError: conflicting sizes for dimension time"
    else
      .ok { times := st.attrs, xcoords := ux, ycoords := uy, slices := slices,
            crs := (match st.array_list with | [] => "" | f :: _ => f.crs) }

/-- The `period` argument: a string or an integer count of time steps. -/
inductive Period where
  | str : String → Period
  | int : ℤ → Period

/-- The names accepted by `aggregate_temporal`. -/
def aggTypes7 : List String :=
  ["mean", "median", "sum", "perc95", "perc5", "max", "min"]

/-- An xarray reduction with its default `skipna=True`: reduce the present
values, `NaN` when none are. -/
def skipna (f : List ℚ → ℚ) (l : List (Option ℚ)) : Option ℚ :=
  let v := l.filterMap id
  if v = [] then none else some (f v)

/-- Per-cell reduction of a stack of same-grid slices with missing data. -/
def cellAggO (f : List (Option ℚ) → Option ℚ) (slices : List OArr2) : OArr2 :=
  match slices with
  | [] => []
  | s0 :: _ =>
    (List.range s0.length).map (fun r =>
      (List.range ((s0.headD []).length)).map (fun c =>
        f (slices.map (fun s => ((s.getD r []).getD c none)))))

/-- The ascending distinct years of the time axis (`groupby` sorts its
group labels). -/
def groupYears (times : List Date) : List ℤ :=
  ((times.map (·.year)).dedup).insertionSort (· ≤ ·)

/-- The ascending distinct months of the time axis. -/
def groupMonths (times : List Date) : List ℕ :=
  ((times.map (·.month)).dedup).insertionSort (· ≤ ·)

/-- The slices of a cube whose time label satisfies `p`. -/
def groupSlices (xdr : Cube) (p : Date → Bool) : List OArr2 :=
  ((xdr.times.zip xdr.slices).filter (fun t => p t.1)).map (·.2)

/-- Zero padding `str(month).zfill(2)`. -/
def zfill2 (m : ℕ) : String :=
  if m < 10 then "0" ++ toString m else toString m

/-- A numeric key embedding dates monotonically, standing for the numeric
time axis `groupby_bins` cuts into intervals. -/
def dateKey (d : Date) : ℚ :=
  372 * (d.year : ℚ) + 31 * ((d.month : ℚ) - 1) + ((d.day : ℚ) - 1)

/-- The bin index `pd.cut` assigns to key `k` for `bins` equal-width
right-closed intervals spanning `[lo, hi]` (the lowest edge is padded so
the minimum lands in bin 0). -/
def binIdx (lo hi : ℚ) (bins : ℕ) (k : ℚ) : ℕ :=
  let width := (hi - lo) / bins
  if width ≤ 0 then 0
  else (max 0 (min ((bins : ℤ) - 1) (⌈(k - lo) / width⌉ - 1))).toNat

/-- Result of `aggregate_temporal`: the rasters written and the returned
`(outfname_list, agg_list)`. -/
structure TOut where
  writes : List (String × OArr2)
  outfname_list : List String
  agg_list : List String
deriving DecidableEq

/-- The output loop shared by the three grouping modes: for every
surviving aggregation name and every group (in that nesting order), write
`{outfile}_{agg}_{label}.tif`. -/
def temporalOut (outfile : String) (aggcheck : List String)
    (groups : List (String × List OArr2)) : TOut :=
  { writes := (aggcheck.map (fun a => groups.map (fun g =>
      (outfile ++ "_" ++ a ++ "_" ++ g.1 ++ ".tif",
       cellAggO (skipna (aggFunByName a)) g.2)))).flatten
    outfname_list := (aggcheck.map (fun a => groups.map (fun g =>
      outfile ++ "_" ++ a ++ "_" ++ g.1 ++ ".tif"))).flatten
    agg_list := (aggcheck.map (fun a => groups.map (fun _ => a))).flatten }

/-- Embedding of `aggregate_temporal(xdr, period, agg, outfile)`.  The filter
`aggcheck = [a for a in agg if a in agg_types]` silently drops unknown
aggregation names, and the following `if aggcheck is None` is always false
(a comprehension is never `None`), so no error is ever raised for them; an
unrecognised `period` raises `ValueError` before anything is written. -/
def aggregate_temporal (xdr : Cube) (period : Period) (agg : List String)
    (outfile : String) : Except String TOut :=
  let aggcheck := agg.filter (fun a => aggTypes7.contains a)
  match period with
  | .str "yearly" =>
    .ok (temporalOut outfile aggcheck
      ((groupYears xdr.times).map (fun y =>
        (toString y, groupSlices xdr (fun d => d.year = y)))))
  | .str "monthly" =>
    .ok (temporalOut outfile aggcheck
      ((groupMonths xdr.times).map (fun m =>
        (zfill2 m, groupSlices xdr (fun d => d.month = m)))))
  | .int n =>
    -- first `bins = int(np.floor(len(xdr)/period))`, then `groupby_bins` over time
    if n = 0 then .error "ZeroDivisionError: division by zero"
    else
      let bins : ℤ := ⌊(xdr.times.length : ℚ) / (n : ℚ)⌋
      if bins ≤ 0 then .error "ValueError: bins must be a positive integer"
      else
        let keys := xdr.times.map dateKey
        let lo := qMin keys
        let hi := qMax keys
        -- non-empty bins only, in ascending order; the label models
        -- `str(p[time_bins].values)[1:11]`, a 10-character slice of the
        -- interval rendering
        let grps := ((List.range bins.toNat).filter (fun j =>
          xdr.times.any (fun d => binIdx lo hi bins.toNat (dateKey d) = j))).map
            (fun j =>
              ((toString (lo + (hi - lo) * j / bins)).take 10,
               groupSlices xdr (fun d => binIdx lo hi bins.toNat (dateKey d) = j)))
        .ok (temporalOut outfile aggcheck grps)
  | .str _ =>
    .error "ValueError: Invalid temporal period. Expected any of: yearly, monthly, or an integer period"

/-! ## Helper lemmas -/

/-- Truncation agrees with flooring on nonnegative quotients. -/
theorem pyInt_of_nonneg {q : ℚ} (h : 0 ≤ q) : pyInt q = ⌊q⌋ := by
  simp [pyInt, h]

/-- Success test for `Except`. -/
def isOkE {ε α : Type} : Except ε α → Bool
  | .ok _ => true
  | .error _ => false

/-- One-axis numpy indexing yields `IndexError` (here `none`) exactly when
the index is below `-len` or at/above `len`. -/
theorem npIndex1_eq_none_of_oob {α : Type} (l : List α) (i : ℤ)
    (h : i < -(l.length : ℤ) ∨ (l.length : ℤ) ≤ i) : npIndex1 l i = none := by
  rcases h with h | h
  · have hneg : ¬ (0 ≤ i) := by
      intro h0
      have : (0 : ℤ) ≤ (l.length : ℤ) := by positivity
      omega
    have hlow : ¬ (-(l.length : ℤ) ≤ i) := by omega
    simp [npIndex1, hneg, hlow]
  · have h0 : 0 ≤ i := le_trans (by positivity) h
    have hlen : l.length ≤ i.toNat := by omega
    simp only [npIndex1, if_pos h0]
    exact List.get?_eq_none.2 hlen

/-- An in-range value returned by one-axis indexing is a member of the
list. -/
theorem npIndex1_mem {α : Type} {l : List α} {i : ℤ} {a : α}
    (h : npIndex1 l i = some a) : a ∈ l := by
  unfold npIndex1 at h
  split at h
  · exact List.get?_mem h
  · split at h
    · exact List.get?_mem h
    · simp at h

/-! ## Claim C1: coordinate-to-pixel formula -/

/-- C1 counterexample.  `_get_coords_at_point` truncates toward zero
(Python `int()`), so for the transform `(1, 0, 0, 0, -1, 0)` and the point
`lon = -1/2`, `lat = 1/2` it returns index `(0, 0)`, while the claimed
floor formula gives `-1` for both quotients. -/
theorem c1_counterexample :
    get_coords_at_point ⟨1, 0, 0, 0, -1, 0⟩ (-1/2) (1/2) = (0, 0) ∧
    ⌊(((-1 : ℚ)/2) - 0) / 1⌋ = -1 ∧
    ⌊(((1 : ℚ)/2) - 0) / (-1)⌋ = -1 := by
  refine ⟨?_, by norm_num, by norm_num⟩
  simp [get_coords_at_point, pyInt]
  norm_num

/-- C1 amended.  `_get_coords_at_point` returns the pair
`(int((lat - gt[5]) / gt[4]), int((lon - gt[2]) / gt[0]))` with `int()`
truncating toward zero and no bounds checking; whenever both quotients are
nonnegative (in particular on exact pixel boundaries inside the extent)
this agrees with the claimed floor formula, ties resolving to the lower
index. -/
theorem c1_floor_truncation (gt : GT) (lon lat : ℚ)
    (hx : 0 ≤ (lon - gt.g2) / gt.g0) (hy : 0 ≤ (lat - gt.g5) / gt.g4) :
    get_coords_at_point gt lon lat =
      (⌊(lat - gt.g5) / gt.g4⌋, ⌊(lon - gt.g2) / gt.g0⌋) := by
  simp [get_coords_at_point, pyInt_of_nonneg hx, pyInt_of_nonneg hy]

/-- C1 witness: the amended formula at a concrete in-extent point. -/
theorem c1_witness :
    get_coords_at_point ⟨1, 0, 0, 0, -1, 0⟩ (1/2) (-1/2) =
      (⌊(((-1 : ℚ)/2) - 0) / (-1)⌋, ⌊(((1 : ℚ)/2) - 0) / 1⌋) :=
  c1_floor_truncation ⟨1, 0, 0, 0, -1, 0⟩ (1/2) (-1/2)
    (by norm_num) (by norm_num)

/-! ## Claim C5: output dimensions of `reproj_raster` -/

/-- C5 counterexample.  For bounding box `(0, 0, 17, 17)` and resolution
`10`, the code computes `int(17/10) = 1` output pixels per axis, while the
claimed formula `round(17/10) = 2`. -/
theorem c5_counterexample :
    reproj_raster ⟨1⟩ 0 0 17 17 10 =
      { width := 1, height := 1, resampling := ["nearest"] } ∧
    round (((17 : ℚ) - 0) / 10) = 2 ∧ (1 : ℤ) ≠ 2 := by
  refine ⟨?_, by norm_num [round_eq], by decide⟩
  simp [reproj_raster, pyInt]
  norm_num

/-- C5 amended.  `reproj_raster` computes its output width and height with
Python `int()` truncation, `int((right-left)/res)` and
`int((top-bottom)/res)` (equal to the floor, not the rounding, of the
quotients whenever they are nonnegative), and resamples every band with
nearest-neighbor interpolation. -/
theorem c5_truncated_dims (src : ReprojSrc) (left bottom right top res : ℚ)
    (hw : 0 ≤ (right - left) / res) (hh : 0 ≤ (top - bottom) / res) :
    reproj_raster src left bottom right top res =
      { width := ⌊(right - left) / res⌋, height := ⌊(top - bottom) / res⌋,
        resampling := List.replicate src.count "nearest" } ∧
    ∀ r ∈ (reproj_raster src left bottom right top res).resampling,
      r = "nearest" := by
  constructor
  · simp [reproj_raster, pyInt_of_nonneg hw, pyInt_of_nonneg hh]
  · intro r hr
    exact List.eq_of_mem_replicate (by simpa [reproj_raster] using hr)

/-- C5 witness: the amended dimensions at a concrete bounding box. -/
theorem c5_witness :
    reproj_raster ⟨2⟩ 0 0 17 17 10 =
      { width := ⌊((17 : ℚ) - 0) / 10⌋, height := ⌊((17 : ℚ) - 0) / 10⌋,
        resampling := List.replicate 2 "nearest" } ∧
    ∀ r ∈ (reproj_raster ⟨2⟩ 0 0 17 17 10).resampling, r = "nearest" :=
  c5_truncated_dims ⟨2⟩ 0 0 17 17 10 (by norm_num) (by norm_num)

/-! ## Claim C9: the `RuntimeWarning` guard of the batch aggregators -/

/-- C9.  When both `file_list` and `data_dir` are set, `aggregate_rasters`
and `aggregate_multiband` raise `RuntimeWarning` as their first statement:
no file is read or written and nothing is returned. -/
theorem c9_runtimewarning_guard (A B : List Raster) (agg : List String)
    (outfile : String) :
    aggregate_rasters (some A) (some B) agg outfile =
      ⟨some runtimeWarningMsg, [], [], []⟩ ∧
    aggregate_multiband (some A) (some B) agg outfile =
      ⟨some runtimeWarningMsg, [], [], [], [], []⟩ := by
  constructor
  · simp [aggregate_rasters]
  · simp [aggregate_multiband]

/-! ## Claim C2: out-of-bounds sampling -/

/-- C2 counterexample.  For a 2×2 raster with transform `(1, 0, 0, 0, -1, 0)`
and the point `lon = 1/2`, `lat = 3/2` (outside the extent, above the top
edge), the computed first index is `-1` — outside the pixel bounds — yet
`raster_query` records the wrapped-around value `3` (numpy negative
indexing), not the sentinel `0`. -/
theorem c2_counterexample :
    samplePoint ⟨1, 0, 0, 0, -1, 0⟩ [[1, 2], [3, 4]] (1/2) (3/2) = 3 ∧
    samplePoint ⟨1, 0, 0, 0, -1, 0⟩ [[1, 2], [3, 4]] (1/2) (3/2) ≠ 0 ∧
    (get_coords_at_point ⟨1, 0, 0, 0, -1, 0⟩ (1/2) (3/2)).1 = -1 := by
  refine ⟨?_, by with_unfolding_all decide, by with_unfolding_all decide⟩
  with_unfolding_all decide

/-- C2 amended.  The per-point lookup of `raster_query` yields the sentinel
`0` exactly when the index raises in numpy: a component at or beyond the
dimension, or below its negation.  (Components in `[-dim, -1]` instead wrap
silently to the opposite edge, as the counterexample shows; the bare
`except` means no exception ever propagates, the lookup being total.) -/
theorem c2_out_of_bounds_sentinel (gt : GT) (arr : Arr2) (lon lat : ℚ)
    (hrect : isRect arr = true)
    (h : (get_coords_at_point gt lon lat).1 < -(arr.length : ℤ) ∨
         (arr.length : ℤ) ≤ (get_coords_at_point gt lon lat).1 ∨
         (get_coords_at_point gt lon lat).2 < -(((arr.headD []).length : ℤ)) ∨
         ((arr.headD []).length : ℤ) ≤ (get_coords_at_point gt lon lat).2) :
    samplePoint gt arr lon lat = 0 := by
  have hnone : npIndex2 arr (get_coords_at_point gt lon lat).1
      (get_coords_at_point gt lon lat).2 = none := by
    rcases h with h | h | h | h
    · simp [npIndex2, npIndex1_eq_none_of_oob arr _ (Or.inl h)]
    · simp [npIndex2, npIndex1_eq_none_of_oob arr _ (Or.inr h)]
    all_goals {
      cases hrow : npIndex1 arr (get_coords_at_point gt lon lat).1 with
      | none => simp [npIndex2, hrow]
      | some row =>
        have hmem := npIndex1_mem hrow
        have hlen : row.length = (arr.headD []).length := by
          have h2 := hrect
          simp only [isRect, List.all_eq_true, decide_eq_true_eq] at h2
          exact h2 row hmem
        have hoob : npIndex1 row (get_coords_at_point gt lon lat).2 = none := by
          refine npIndex1_eq_none_of_oob row _ ?_
          rw [hlen]
          first
          | exact Or.inl h
          | exact Or.inr h
        simp [npIndex2, hrow, hoob] }
  simp [samplePoint, hnone]

/-- C2 witness: a point far to the right of a concrete 2×2 raster samples
as `0`. -/
theorem c2_witness :
    samplePoint ⟨1, 0, 0, 0, -1, 0⟩ [[1, 2], [3, 4]] 5 (1/2) = 0 :=
  c2_out_of_bounds_sentinel ⟨1, 0, 0, 0, -1, 0⟩ [[1, 2], [3, 4]] 5 (1/2)
    (by with_unfolding_all decide) (by with_unfolding_all decide)

/-! ## Claim C3: shape consistency in `combine_rasters_temporal` -/

/-- A file that passes every check `combine_rasters_temporal` actually
performs: the channel coordinate exists, the time attribute exists and is a
tuple with one label per slice, and the channel coordinate is nonempty. -/
def validTemporalFile (channel attr : String) (f : XFile) : Prop :=
  channel ∈ f.coords ∧
  ∃ ls, pyDictGet f.attrs attr = some (.tup ls) ∧
    ls.length = f.data.length ∧ f.channelVals ≠ []

/-- A 1×1 single-band file. -/
def c3FileA : XFile :=
  ⟨"EPSG:4326", ["band"], [("long_name", .tup [⟨2019, 1, 1⟩])],
   [1], [0], [0], [[[5]]]⟩

/-- A 2×2 single-band file on a different grid and CRS. -/
def c3FileB : XFile :=
  ⟨"EPSG:3857", ["band"], [("long_name", .tup [⟨2019, 2, 1⟩])],
   [1], [0, 1], [0, 1], [[[1, 2], [3, 4]]]⟩

/-- C3 counterexample.  `combine_rasters_temporal` applied to two files of
different pixel shapes (1×1 and 2×2) and different CRS succeeds — it
performs no shape or CRS verification and returns a (padded) cube instead
of raising. -/
theorem c3_counterexample :
    isOkE (combine_rasters_temporal [c3FileA, c3FileB] "band" "long_name") = true ∧
    shape2 (c3FileA.data.headD []) = (1, 1) ∧
    shape2 (c3FileB.data.headD []) = (2, 2) ∧
    c3FileA.crs ≠ c3FileB.crs := by
  with_unfolding_all decide

/-- A successful `isOkE` test yields a witness. -/
theorem exists_ok_of_isOkE {ε α : Type} {x : Except ε α}
    (h : isOkE x = true) : ∃ c, x = .ok c := by
  cases x with
  | ok c => exact ⟨c, rfl⟩
  | error e => simp [isOkE] at h

/-- C3 amended.  `combine_rasters_temporal` verifies only that each file
has the named channel coordinate and time attribute; it never compares
shapes or CRS: for any two files passing those checks — whatever their
shapes — the operation succeeds. -/
theorem c3_no_shape_check (channel attr : String) (f g : XFile)
    (hf : validTemporalFile channel attr f)
    (hg : validTemporalFile channel attr g) :
    ∃ c, combine_rasters_temporal [f, g] channel attr = .ok c := by
  obtain ⟨hfc, lf, hfa, hflen, hfnz⟩ := hf
  obtain ⟨hgc, lg, hga, hglen, hgnz⟩ := hg
  obtain ⟨last, hlast⟩ : ∃ a, f.channelVals.getLast? = some a := by
    cases hcv : f.channelVals.getLast? with
    | none => exact absurd (List.getLast?_eq_none_iff.mp hcv) hfnz
    | some a => exact ⟨a, rfl⟩
  refine exists_ok_of_isOkE ?_
  simp [combine_rasters_temporal, combLoop, hfc, hgc, hfa, hga, hlast,
    isOkE, hflen, hglen]

/-- C3 witness: the amended statement at the two concrete files of
different shapes. -/
theorem c3_witness :
    ∃ c, combine_rasters_temporal [c3FileA, c3FileB] "band" "long_name" = .ok c :=
  c3_no_shape_check "band" "long_name" c3FileA c3FileB
    ⟨by decide, [⟨2019, 1, 1⟩], by decide, by decide, by decide⟩
    ⟨by decide, [⟨2019, 2, 1⟩], by decide, by decide, by decide⟩

/-! ## Claim C7: `aggregate_rasters` on three constant single-band rasters -/

/-- A 10×10 single-band raster with constant pixel value `v`. -/
def c7File (v : ℚ) (name : String) : Raster :=
  ⟨name, ⟨1, 0, 0, 0, -1, 0⟩, [List.replicate 10 (List.replicate 10 v)]⟩

/-- The three 10×10 rasters with constant values 1, 2 and 3. -/
def c7Files : List Raster :=
  [c7File 1 "rain1", c7File 2 "rain2", c7File 3 "rain3"]

/-- C7.  `array_list.extend(_read_file(x))` flattens each single-band
raster into its 10 rows, so the "sum" reduction collapses the stack of 30
rows to a 1-D array whose entries are `60`, not the per-pixel `6.0` the
specification requires (the "mean" entries happen to agree at `2.0` but are
likewise 1-D), and the subsequent `dst.write` of a 1-D array raises
`ValueError`: the run aborts with no file written and no value returned. -/
theorem c7_code_bug :
    stackAgg qSum (arrayListOf c7Files) =
      some (NPA.one (List.replicate 10 60)) ∧
    stackAgg qMean (arrayListOf c7Files) =
      some (NPA.one (List.replicate 10 2)) ∧
    (aggregate_rasters (some c7Files) none ["mean", "sum"] "aggregation").exn =
      some "ValueError: source shape incompatible with band 1" ∧
    (aggregate_rasters (some c7Files) none ["mean", "sum"] "aggregation").writes = [] ∧
    (aggregate_rasters (some c7Files) none ["mean", "sum"] "aggregation").ret = [] := by
  set_option maxRecDepth 100000 in with_unfolding_all decide

/-! ## Claim C4: validation in `aggregate_temporal` -/

/-- A minimal one-slice cube. -/
def c4Cube : Cube := ⟨[⟨2020, 1, 1⟩], [0], [0], [[[some 1]]], "EPSG:4326"⟩

/-- C4 counterexample.  An unsupported aggregation name does not raise:
`aggregate_temporal` with `agg=["bogus"]` silently filters the name out and
returns successfully with no output at all. -/
theorem c4_counterexample :
    aggregate_temporal c4Cube (Period.str "yearly") ["bogus"] "agg" =
      .ok ⟨[], [], []⟩ ∧
    "bogus" ∉ aggTypes7 := by
  constructor
  · with_unfolding_all rfl
  · decide

/-- C4 amended.  An unrecognised `period` string raises `ValueError`
before anything is written, but unsupported aggregation names are silently
dropped by the `aggcheck` filter (the `if aggcheck is None` guard being
dead code), never raising: the result on any `agg` list equals the result
on its valid sublist. -/
theorem c4_validation :
    (∀ (xdr : Cube) (agg : List String) (outfile s : String),
      s ≠ "yearly" → s ≠ "monthly" →
      aggregate_temporal xdr (Period.str s) agg outfile =
        .error "ValueError: Invalid temporal period. Expected any of: yearly, monthly, or an integer period") ∧
    (∀ (xdr : Cube) (p : Period) (agg : List String) (outfile : String),
      aggregate_temporal xdr p agg outfile =
        aggregate_temporal xdr p
          (agg.filter (fun a => aggTypes7.contains a)) outfile) := by
  constructor
  · intro xdr agg outfile s h1 h2
    unfold aggregate_temporal
    split
    · rename_i heq
      injection heq with h
      exact absurd h h1
    · rename_i heq
      injection heq with h
      exact absurd h h2
    · rename_i heq
      exact absurd heq (by simp)
    · rfl
  · intro xdr p agg outfile
    have hff : (agg.filter (fun a => aggTypes7.contains a)).filter
        (fun a => aggTypes7.contains a) =
        agg.filter (fun a => aggTypes7.contains a) := by
      rw [List.filter_filter]
      simp
    simp only [aggregate_temporal, hff]

/-- C4 witness: the amended statement at a concrete unsupported period. -/
theorem c4_witness :
    aggregate_temporal c4Cube (Period.str "weekly") ["mean"] "agg" =
      .error "ValueError: Invalid temporal period. Expected any of: yearly, monthly, or an integer period" :=
  c4_validation.1 c4Cube ["mean"] "agg" "weekly" (by decide) (by decide)

/-! ## Claim C8: yearly aggregation over 24 monthly rasters -/

/-- Counting in a flatten of constant-length blocks. -/
theorem count_flatten_map_replicate (k : ℕ) (a : String) (l : List String) :
    ((l.map (fun b => List.replicate k b)).flatten).count a = k * l.count a := by
  induction l with
  | nil => simp
  | cons b bs ih =>
    rcases eq_or_ne a b with hab | hab
    · subst hab
      simp [List.count_replicate, List.count_cons, ih]
      ring
    · have hab2 : ¬ b = a := fun h => hab h.symm
      simp [List.count_replicate, List.count_cons, hab, hab2, ih]

/-- C8.  On a cube of 24 monthly slices spanning exactly 2 calendar years,
`aggregate_temporal` with `period="yearly"` succeeds and produces exactly 2
output files per requested aggregation statistic, named
`{prefix}_{aggregation}_{year}.tif`. -/
theorem c8_yearly_two_files (xdr : Cube) (agg : List String) (outfile : String)
    (h24 : xdr.times.length = 24) (hyears : (groupYears xdr.times).length = 2)
    (hnd : agg.Nodup) :
    ∃ t, aggregate_temporal xdr (Period.str "yearly") agg outfile = .ok t ∧
      t.outfname_list =
        ((agg.filter (fun a => aggTypes7.contains a)).map (fun a =>
          (groupYears xdr.times).map (fun y =>
            outfile ++ "_" ++ a ++ "_" ++ toString y ++ ".tif"))).flatten ∧
      (∀ a ∈ agg.filter (fun a => aggTypes7.contains a),
        t.agg_list.count a = 2) := by
  refine ⟨_, rfl, ?_, ?_⟩
  · simp [temporalOut, List.map_map, Function.comp_def]
  · intro a ha
    have hgl : ((groupYears xdr.times).map (fun y =>
        (toString y, groupSlices xdr (fun d => d.year = y)))).length = 2 := by
      simp [hyears]
    simp only [temporalOut]
    have hkey : ∀ (gs : List (String × List OArr2)), gs.length = 2 →
        ((((agg.filter (fun a => aggTypes7.contains a))).map
          (fun a => gs.map (fun _ => a))).flatten).count a = 2 := by
      intro gs hgs
      have hmc : ∀ b : String, gs.map (fun _ => b) = List.replicate 2 b := by
        intro b
        rw [List.map_const']
        rw [hgs]
      calc ((((agg.filter (fun a => aggTypes7.contains a))).map
            (fun a => gs.map (fun _ => a))).flatten).count a
          = ((((agg.filter (fun a => aggTypes7.contains a))).map
            (fun b => List.replicate 2 b)).flatten).count a := by
            congr 1
            apply congrArg
            apply List.map_congr_left
            intro b _
            exact hmc b
        _ = 2 * (agg.filter (fun a => aggTypes7.contains a)).count a :=
            count_flatten_map_replicate 2 a _
        _ = 2 := by
            rw [List.count_eq_one_of_mem (hnd.filter _) ha]
    exact hkey _ hgl

/-- A cube of 24 monthly slices covering 2019 and 2020. -/
def c8Cube : Cube :=
  { times := (List.range 12).map (fun m => ⟨2019, m + 1, 1⟩) ++
      (List.range 12).map (fun m => ⟨2020, m + 1, 1⟩)
    xcoords := [0]
    ycoords := [0]
    slices := List.replicate 24 [[some 1]]
    crs := "EPSG:4326" }

/-- C8 witness: the theorem at the concrete 24-month cube. -/
theorem c8_witness :
    ∃ t, aggregate_temporal c8Cube (Period.str "yearly") ["mean"] "agg" = .ok t ∧
      t.outfname_list =
        ((["mean"].filter (fun a => aggTypes7.contains a)).map (fun a =>
          (groupYears c8Cube.times).map (fun y =>
            "agg" ++ "_" ++ a ++ "_" ++ toString y ++ ".tif"))).flatten ∧
      (∀ a ∈ ["mean"].filter (fun a => aggTypes7.contains a),
        t.agg_list.count a = 2) :=
  c8_yearly_two_files c8Cube ["mean"] "agg" (by decide) (by decide) (by decide)

/-! ## Claims C6 and C10: the log-table update -/

/-- The normalised `loginfos` list always has the requested length. -/
theorem normalizedLogs_length {logs : StrOrList} {n : ℕ} {L : List String}
    (h : normalizedLogs logs n = some L) : L.length = n := by
  cases logs with
  | str s =>
    simp only [normalizedLogs, Option.some_inj] at h
    subst h
    simp
  | list l =>
    simp only [normalizedLogs] at h
    split at h
    · cases h
      simp
    · split at h
      · cases h
        assumption
      · cases h

/-- A batch containing a filename already present in the table leaves the
table unchanged and the CSV unwritten, whatever the other arguments. -/
theorem update_logtable_of_dup (df_log : List LogRow)
    (filenames layernames : List String) (ds : String) (st : Settings)
    (titles : List String) (ag logs : StrOrList)
    (h : ∃ f ∈ filenames, f ∈ df_log.map (fun r => r.filename_out)) :
    update_logtable df_log filenames layernames ds st titles ag logs =
      .ok ⟨df_log, false⟩ := by
  rcases h with ⟨f0, hf0, hmem⟩
  have hany : filenames.any
      (fun f => (df_log.map (fun r => r.filename_out)).contains f) = true :=
    List.any_eq_true.2 ⟨f0, hf0, by simpa using hmem⟩
  simp only [update_logtable]
  split_ifs <;> simp_all

/-- The six column lists of equal length produce rows whose
`filename_out` column is exactly the `filenames` argument. -/
theorem mkRows_map_filename :
    ∀ (ln ag dt ti fn lo : List String),
      ln.length = fn.length → ag.length = fn.length → dt.length = fn.length →
      ti.length = fn.length → lo.length = fn.length →
      (mkRows ln ag dt ti fn lo).map (fun r => r.filename_out) = fn := by
  intro ln ag dt ti fn lo
  induction fn generalizing ln ag dt ti lo with
  | nil =>
    intro h1 h2 h3 h4 h5
    simp only [List.length_nil, List.length_eq_zero] at h1 h2 h3 h4 h5
    subst h1; subst h2; subst h3; subst h4; subst h5
    simp [mkRows]
  | cons x xs ih =>
    intro h1 h2 h3 h4 h5
    cases ln with
    | nil => simp at h1
    | cons a as =>
      cases ag with
      | nil => simp at h2
      | cons b bs =>
        cases dt with
        | nil => simp at h3
        | cons c cs =>
          cases ti with
          | nil => simp at h4
          | cons d ds0 =>
            cases lo with
            | nil => simp at h5
            | cons e es =>
              simp only [mkRows, List.map_cons]
              simp only [List.length_cons, Nat.succ.injEq] at h1 h2 h3 h4 h5
              rw [ih as bs cs ds0 es h1 h2 h3 h4 h5]

/-- Any `.ok` outcome of `update_logtable` is either the unchanged table
with the CSV unwritten, or the fully appended batch with the CSV written,
in which case no batch filename was present in the table before. -/
theorem update_logtable_ok_cases (df_log : List LogRow)
    (filenames layernames : List String) (ds : String) (st : Settings)
    (titles : List String) (ag logs : StrOrList) (r : UpdateOut)
    (hu : update_logtable df_log filenames layernames ds st titles ag logs =
      .ok r) :
    r = ⟨df_log, false⟩ ∨
    (r.csvWritten = true ∧
      r.table.map (fun row => row.filename_out) =
        df_log.map (fun row => row.filename_out) ++ filenames ∧
      ∀ f ∈ filenames, f ∉ df_log.map (fun row => row.filename_out)) := by
  simp only [update_logtable] at hu
  split at hu
  · cases hu
    exact Or.inl rfl
  · split at hu
    · cases hu
      exact Or.inl rfl
    · rename_i h2
      split at hu
      · cases hu
        exact Or.inl rfl
      · rename_i h3
        split at hu
        · cases hu
          exact Or.inl rfl
        · rename_i L hL
          split at hu
          · cases hu
          · rename_i h4
            cases hu
            refine Or.inr ⟨rfl, ?_, ?_⟩
            · simp only [List.map_append]
              congr 1
              rename_i h1
              apply mkRows_map_filename
              · omega
              · push_neg at h2
                omega
              · simp only [List.length_replicate]
                omega
              · push_neg at h4
                omega
              · have := normalizedLogs_length hL
                omega
            · intro f hf hmem
              apply h3
              exact List.any_eq_true.2 ⟨f, hf, by simpa using hmem⟩

/-- Every trigger of an early `return df_log` — a duplicate filename or any
of the length mismatches — leaves the table unchanged and the CSV
unwritten. -/
theorem update_logtable_unchanged (df_log : List LogRow)
    (filenames layernames : List String) (ds : String) (st : Settings)
    (titles : List String) (ag logs : StrOrList)
    (h : (∃ f ∈ filenames, f ∈ df_log.map (fun r => r.filename_out)) ∨
      filenames.length ≠ layernames.length ∨
      (normalizedAg ag st ds layernames.length).length ≠ layernames.length ∨
      normalizedLogs logs layernames.length = none) :
    update_logtable df_log filenames layernames ds st titles ag logs =
      .ok ⟨df_log, false⟩ := by
  by_cases h1 : filenames.length ≠ layernames.length
  · simp only [update_logtable]
    rw [if_pos h1]
  by_cases h2 : (normalizedAg ag st ds layernames.length).length ≠
      layernames.length
  · simp only [update_logtable]
    rw [if_neg h1, if_pos h2]
  by_cases h3 : ∃ f ∈ filenames, f ∈ df_log.map (fun r => r.filename_out)
  · exact update_logtable_of_dup df_log filenames layernames ds st titles
      ag logs h3
  rcases h with h | h | h | h
  · exact absurd h h3
  · exact absurd h h1
  · exact absurd h h2
  · have hany : ¬ (filenames.any
        (fun f => (df_log.map (fun r => r.filename_out)).contains f) = true) := by
      intro hc
      rcases List.any_eq_true.1 hc with ⟨f0, hf0, hc0⟩
      exact h3 ⟨f0, hf0, by simpa using hc0⟩
    simp only [update_logtable]
    rw [if_neg h1, if_neg h2, if_neg hany, h]

/-- C6 counterexample.  A batch whose two entries share the same output
filename (absent from the table) is appended whole: the resulting table
holds `filename_out = "a"` twice, so uniqueness of `filename_out` is not
preserved under every update. -/
theorem c6_counterexample :
    update_logtable [] ["a", "a"] ["l1", "l2"] "SRC" ⟨[], "out"⟩ []
        (.list ["m", "m"]) (.str "ok") =
      .ok ⟨[⟨"l1", "m", "SRC", "l1_m", "a", "ok"⟩,
            ⟨"l2", "m", "SRC", "l2_m", "a", "ok"⟩], true⟩ ∧
    ¬ (([⟨"l1", "m", "SRC", "l1_m", "a", "ok"⟩,
         ⟨"l2", "m", "SRC", "l2_m", "a", "ok"⟩] : List LogRow).map
        (fun r => r.filename_out)).Nodup := by
  constructor
  · rfl
  · decide

/-- C6 amended.  A batch filename already present in the table leaves the
table unchanged (and the CSV unwritten) regardless of the data source, and
`filename_out` stays unique under every update whose batch has no internal
duplicate filenames — the function never checks the batch against itself. -/
theorem c6_duplicate_filenames (df_log : List LogRow)
    (filenames layernames : List String) (ds : String) (st : Settings)
    (titles : List String) (ag logs : StrOrList) :
    ((∃ f ∈ filenames, f ∈ df_log.map (fun r => r.filename_out)) →
      update_logtable df_log filenames layernames ds st titles ag logs =
        .ok ⟨df_log, false⟩) ∧
    ((df_log.map (fun r => r.filename_out)).Nodup → filenames.Nodup →
      ∀ r, update_logtable df_log filenames layernames ds st titles ag logs =
        .ok r → (r.table.map (fun row => row.filename_out)).Nodup) := by
  refine ⟨update_logtable_of_dup df_log filenames layernames ds st titles
    ag logs, ?_⟩
  intro hnd1 hnd2 r hu
  rcases update_logtable_ok_cases df_log filenames layernames ds st titles
      ag logs r hu with h | ⟨_, hmap, hdisj⟩
  · subst h
    exact hnd1
  · rw [hmap]
    exact List.Nodup.append hnd1 hnd2
      (List.Disjoint.symm (fun f hf => hdisj f hf))

/-- C6 witness: a duplicate arriving from a different data source leaves a
concrete one-row table unchanged. -/
theorem c6_witness :
    update_logtable [⟨"l", "m", "S", "t", "a", "i"⟩] ["a"] ["x"] "OTHER"
        ⟨[], "out"⟩ [] (.list ["m"]) (.str "ok") =
      .ok ⟨[⟨"l", "m", "S", "t", "a", "i"⟩], false⟩ :=
  (c6_duplicate_filenames [⟨"l", "m", "S", "t", "a", "i"⟩] ["a"] ["x"]
    "OTHER" ⟨[], "out"⟩ [] (.list ["m"]) (.str "ok")).1
    ⟨"a", by decide, by decide⟩

/-- C10.  `update_logtable` is atomic over its batch: a duplicate filename
or a length mismatch among filenames/layernames/agfunctions/loginfos
returns the table unchanged with the CSV unwritten, and whenever the CSV is
written the table is exactly the old table plus one row per batch
filename. -/
theorem c10_batch_atomicity (df_log : List LogRow)
    (filenames layernames : List String) (ds : String) (st : Settings)
    (titles : List String) (ag logs : StrOrList) :
    (((∃ f ∈ filenames, f ∈ df_log.map (fun r => r.filename_out)) ∨
      filenames.length ≠ layernames.length ∨
      (normalizedAg ag st ds layernames.length).length ≠ layernames.length ∨
      normalizedLogs logs layernames.length = none) →
      update_logtable df_log filenames layernames ds st titles ag logs =
        .ok ⟨df_log, false⟩) ∧
    (∀ r, update_logtable df_log filenames layernames ds st titles ag logs =
      .ok r → r.csvWritten = true →
      r.table.map (fun row => row.filename_out) =
        df_log.map (fun row => row.filename_out) ++ filenames) := by
  refine ⟨update_logtable_unchanged df_log filenames layernames ds st titles
    ag logs, ?_⟩
  intro r hu hw
  rcases update_logtable_ok_cases df_log filenames layernames ds st titles
      ag logs r hu with h | ⟨_, hmap, _⟩
  · subst h
    cases hw
  · exact hmap

/-- C10 witness: a mismatched batch (one filename, two layernames) leaves a
concrete table unchanged and unwritten. -/
theorem c10_witness :
    update_logtable [] ["a"] ["x", "y"] "S" ⟨[], "out"⟩ []
        (.list ["m", "m"]) (.str "ok") = .ok ⟨[], false⟩ :=
  (c10_batch_atomicity [] ["a"] ["x", "y"] "S" ⟨[], "out"⟩ []
    (.list ["m", "m"]) (.str "ok")).1 (Or.inr (Or.inl (by decide)))

end Dataharvester
